import Mathlib

/-!
Shallow embedding of `task_manager.py` (a single-file Python task manager).

Modelling conventions:
* `datetime.now().isoformat()` is nondeterministic, so every operation that
  stamps a timestamp takes the current time as an explicit `now : String`
  argument.
* The persisted JSON file is modelled as a `FileContent`: absent, present but
  not parseable as JSON text (`json.load` raises `JSONDecodeError`), or a
  parsed JSON value.  `json.dump` followed by `json.load` is the identity on
  the values this program writes (objects/arrays/strings/ints/null), so the
  textual layer is not modelled.
* Python exceptions relevant to this program are `PyErr`:
  `JSONDecodeError`, `KeyError` (missing dict key), `TypeError`
  (subscripting or iterating a non-dict/non-list).
* `Task` fields are typed as the manager itself creates them
  (`id : Option Int`, text fields `String`, `completed_at : Option String`).
  When a loaded JSON field has a different JSON type, CPython would store the
  raw value; the model reports a `TypeError` instead (`decodeStr` etc.).
  No claim below quantifies over such wrongly-typed-but-loadable contents;
  the faithful part is subscripting/iterating errors, which are what the
  claims exercise.
* Methods are state-passing functions on `TaskManager`.  `save_tasks` can
  fail in Python (I/O error); every mutating method takes a `saveOk : Bool`
  telling whether the underlying file write succeeds, and returns a
  `MutOutcome`: either a normal result together with the new state, or
  `raised` with the state as it is when the save exception propagates
  (the on-disk content after a failed write is left unmodelled: the
  `.file` field of a `raised` state is not meaningful).
-/

namespace PyTM

/-- A JSON value, as produced by `json.load` / consumed by `json.dump`. -/
inductive Json : Type
  | null : Json
  | bool (b : Bool) : Json
  | num (n : Int) : Json
  | str (s : String) : Json
  | arr (elems : List Json) : Json
  | obj (fields : List (String × Json)) : Json

/-- Python exceptions this program can meet while loading. -/
inductive PyErr : Type
  | jsonDecodeError : PyErr
  | keyError : PyErr
  | typeError : PyErr
deriving DecidableEq

/-- Association lookup in a JSON object's field list (Python dict lookup). -/
def lookupField : List (String × Json) → String → Option Json
  | [], _ => none
  | (k, v) :: rest, key => if k = key then some v else lookupField rest key

/-- Python subscription `data[key]`: `KeyError` when the key is missing from a
dict, `TypeError` when `data` is not a dict. -/
def Json.getItem (j : Json) (key : String) : Except PyErr Json :=
  match j with
  | .obj fields =>
    match lookupField fields key with
    | some v => .ok v
    | none => .error .keyError
  | _ => .error .typeError

/-- Python `data.get(key)`: `none` when the key is absent.  Only ever applied
after a successful subscription, so `data` is a dict at every use site. -/
def Json.getOpt (j : Json) (key : String) : Option Json :=
  match j with
  | .obj fields => lookupField fields key
  | _ => none

/-- Python iteration over a value: lists yield their elements, strings their
characters (as 1-character strings), dicts their keys; numbers, booleans and
`None` are not iterable (`TypeError`). -/
def pyIter (j : Json) : Except PyErr (List Json) :=
  match j with
  | .arr elems => .ok elems
  | .str s => .ok (s.toList.map (fun c => .str (String.mk [c])))
  | .obj fields => .ok (fields.map (fun kv => .str kv.1))
  | _ => .error .typeError

/-- Typed read of an optional-int field (the `id`).  A JSON value of any other
type would be stored raw by CPython; the model reports `TypeError` (see the
file header). -/
def decodeOptInt : Json → Except PyErr (Option Int)
  | .null => .ok none
  | .num n => .ok (some n)
  | _ => .error .typeError

/-- Typed read of a string field (model concession as in `decodeOptInt`). -/
def decodeStr : Json → Except PyErr String
  | .str s => .ok s
  | _ => .error .typeError

/-- Typed read of an optional-string field (model concession as in
`decodeOptInt`). -/
def decodeOptStr : Json → Except PyErr (Option String)
  | .null => .ok none
  | .str s => .ok (some s)
  | _ => .error .typeError

/-- Typed read of an int field (model concession as in `decodeOptInt`). -/
def decodeInt : Json → Except PyErr Int
  | .num n => .ok n
  | _ => .error .typeError

/-- One task: `Task.__init__` plus the fields `from_dict` restores. -/
structure Task : Type where
  id : Option Int
  title : String
  description : String
  status : String
  created_at : String
  completed_at : Option String
deriving DecidableEq

/-- `Task.__init__(title, description, task_id)` at time `now`. -/
def Task.init (title : String) (description : String) (task_id : Option Int)
    (now : String) : Task :=
  { id := task_id, title := title, description := description
    status := "pending", created_at := now, completed_at := none }

/-- `Task.complete(self)` at time `now`. -/
def Task.complete (t : Task) (now : String) : Task :=
  { t with status := "completed", completed_at := some now }

def optIntToJson : Option Int → Json
  | none => .null
  | some n => .num n

def optStrToJson : Option String → Json
  | none => .null
  | some s => .str s

/-- `Task.to_dict(self)`. -/
def Task.to_dict (t : Task) : Json :=
  .obj [("id", optIntToJson t.id),
        ("title", .str t.title),
        ("description", .str t.description),
        ("status", .str t.status),
        ("created_at", .str t.created_at),
        ("completed_at", optStrToJson t.completed_at)]

/-- `Task.from_dict(data)`: subscriptions in the source's evaluation order
(`title`, `description`, `id` as constructor arguments, then `status`,
`created_at`, then `data.get("completed_at")`). -/
def Task.from_dict (data : Json) : Except PyErr Task := do
  let titleJ ← data.getItem "title"
  let descriptionJ ← data.getItem "description"
  let idJ ← data.getItem "id"
  let title ← decodeStr titleJ
  let description ← decodeStr descriptionJ
  let id ← decodeOptInt idJ
  let statusJ ← data.getItem "status"
  let status ← decodeStr statusJ
  let createdJ ← data.getItem "created_at"
  let created_at ← decodeStr createdJ
  let completed_at ← match data.getOpt "completed_at" with
    | none => pure none
    | some v => decodeOptStr v
  return { id := id, title := title, description := description
           status := status, created_at := created_at
           completed_at := completed_at }

/-- State of the persisted file. -/
inductive FileContent : Type
  | absent : FileContent
  | unparseable : FileContent
  | parsed (data : Json) : FileContent

/-- The manager's state: the in-memory task list and counter, plus the
persisted file it is bound to (`self.filename`'s content). -/
structure TaskManager : Type where
  tasks : List Task
  next_id : Int
  file : FileContent

/-- The JSON document `save_tasks` writes. -/
def save_data (m : TaskManager) : Json :=
  .obj [("tasks", .arr (m.tasks.map Task.to_dict)),
        ("next_id", .num m.next_id)]

/-- `TaskManager.save_tasks(self)` when the file write succeeds. -/
def save_tasks (m : TaskManager) : TaskManager :=
  { m with file := .parsed (save_data m) }

/-- The list comprehension `[Task.from_dict(td) for td in ...]`: evaluated in
order, the first exception wins. -/
def fromDictList : List Json → Except PyErr (List Task)
  | [] => .ok []
  | j :: js => do
    let t ← Task.from_dict j
    let ts ← fromDictList js
    .ok (t :: ts)

/-- Body of the `try:` block of `load_tasks` on a parsed document:
`data["tasks"]`, iterate it, `Task.from_dict` each element, then
`data.get("next_id", 1)`. -/
def loadBody (data : Json) : Except PyErr (List Task × Int) := do
  let tasksJ ← data.getItem "tasks"
  let items ← pyIter tasksJ
  let ts ← fromDictList items
  let nid ← match data.getOpt "next_id" with
    | none => pure 1
    | some v => decodeInt v
  return (ts, nid)

/-- Result of `load_tasks`: either a new state (with `reported = true` when
the `except` branch printed an error message), or an uncaught exception. -/
inductive LoadOutcome : Type
  | ok (m : TaskManager) (reported : Bool) : LoadOutcome
  | raised (e : PyErr) : LoadOutcome

/-- `TaskManager.load_tasks(self)`.  Only `JSONDecodeError` and `KeyError`
are caught; a `TypeError` propagates. -/
def load_tasks (m : TaskManager) : LoadOutcome :=
  match m.file with
  | .absent => .ok m false
  | .unparseable => .ok { m with tasks := [], next_id := 1 } true
  | .parsed data =>
    match loadBody data with
    | .ok (ts, nid) => .ok { m with tasks := ts, next_id := nid } false
    | .error .jsonDecodeError => .ok { m with tasks := [], next_id := 1 } true
    | .error .keyError => .ok { m with tasks := [], next_id := 1 } true
    | .error .typeError => .raised .typeError

/-- `TaskManager.__init__(filename)`: empty state, counter 1, then load. -/
def newManager (f : FileContent) : LoadOutcome :=
  load_tasks { tasks := [], next_id := 1, file := f }

/-- Outcome of a mutating method: a result with the new state, or the save
step raised and the exception propagates out of the method with the
in-memory state as it stands at that moment. -/
inductive MutOutcome (α : Type) : Type
  | ok (r : α) (m : TaskManager) : MutOutcome α
  | raised (m : TaskManager) : MutOutcome α

/-- The in-memory state after the method, normal or raising. -/
def MutOutcome.state : MutOutcome α → TaskManager
  | .ok _ m => m
  | .raised m => m

/-- Whether the save step raised. -/
def MutOutcome.didRaise : MutOutcome α → Bool
  | .ok _ _ => false
  | .raised _ => true

/-- The returned value, when the method returned normally. -/
def MutOutcome.result : MutOutcome α → Option α
  | .ok r _ => some r
  | .raised _ => none

/-- `TaskManager.add_task(self, title, description)` at time `now`, with
`saveOk` telling whether the file write succeeds. -/
def add_task (saveOk : Bool) (title : String) (description : String)
    (now : String) (m : TaskManager) : MutOutcome Task :=
  let task := Task.init title description (some m.next_id) now
  let m' := { m with tasks := m.tasks ++ [task], next_id := m.next_id + 1 }
  if saveOk then .ok task (save_tasks m') else .raised m'

/-- `TaskManager.list_tasks(self, status)`.  Python's `if status:` is falsy
for both `None` and the empty string. -/
def list_tasks (status : Option String) (m : TaskManager) :
    List Task × TaskManager :=
  (match status with
   | some s => if s = "" then m.tasks else m.tasks.filter (fun t => t.status == s)
   | none => m.tasks,
   m)

/-- `TaskManager.get_task(self, task_id)`: linear scan, first match. -/
def get_task (task_id : Int) (m : TaskManager) : Option Task × TaskManager :=
  (m.tasks.find? (fun t => t.id == some task_id), m)

/-- `task.complete()` mutates the object `get_task` returned, i.e. the first
list element whose id matches. -/
def completeFirst (task_id : Int) (now : String) : List Task → List Task
  | [] => []
  | t :: ts =>
    if t.id == some task_id then Task.complete t now :: ts
    else t :: completeFirst task_id now ts

/-- `TaskManager.complete_task(self, task_id)` at time `now`. -/
def complete_task (saveOk : Bool) (task_id : Int) (now : String)
    (m : TaskManager) : MutOutcome Bool :=
  match (get_task task_id m).1 with
  | some task =>
    if task.status ≠ "completed" then
      let m' := { m with tasks := completeFirst task_id now m.tasks }
      if saveOk then .ok true (save_tasks m') else .raised m'
    else .ok false m
  | none => .ok false m

/-- `self.tasks.remove(task)` where `task` is the object `get_task` returned:
removes the first list element whose id matches. -/
def removeFirst (task_id : Int) : List Task → List Task
  | [] => []
  | t :: ts => if t.id == some task_id then ts else t :: removeFirst task_id ts

/-- `TaskManager.delete_task(self, task_id)`. -/
def delete_task (saveOk : Bool) (task_id : Int) (m : TaskManager) :
    MutOutcome Bool :=
  match (get_task task_id m).1 with
  | some _ =>
    let m' := { m with tasks := removeFirst task_id m.tasks }
    if saveOk then .ok true (save_tasks m') else .raised m'
  | none => .ok false m

/-- The dict `get_statistics` returns. -/
structure Stats : Type where
  total : Nat
  completed : Nat
  pending : Nat
deriving DecidableEq

/-- `TaskManager.get_statistics(self)`. -/
def get_statistics (m : TaskManager) : Stats × TaskManager :=
  let total := m.tasks.length
  let completed := (m.tasks.filter (fun t => t.status == "completed")).length
  ({ total := total, completed := completed, pending := total - completed }, m)

/-- One mutating operation of the store's public interface. -/
inductive Op : Type
  | add (title description now : String) : Op
  | complete (task_id : Int) (now : String) : Op
  | delete (task_id : Int) : Op

/-- Apply one operation (with the save step succeeding) and keep the state. -/
def applyOp (m : TaskManager) : Op → TaskManager
  | .add title description now => (add_task true title description now m).state
  | .complete task_id now => (complete_task true task_id now m).state
  | .delete task_id => (delete_task true task_id m).state

/-- Run a sequence of operations from a given state. -/
def applyOps (m : TaskManager) : List Op → TaskManager
  | [] => m
  | op :: ops => applyOps (applyOp m op) ops

/-- A freshly constructed store over an absent file: `__init__` leaves
`tasks = []`, `next_id = 1`. -/
def initStore : TaskManager := { tasks := [], next_id := 1, file := .absent }

/-- Run a sequence of operations on an initially empty store. -/
def run (ops : List Op) : TaskManager := applyOps initStore ops

/-- The ids handed out by the `add_task` calls of a run, in order. -/
def assigned (m : TaskManager) : List Op → List Int
  | [] => []
  | .add title description now :: ops =>
    match add_task true title description now m with
    | .ok task m' => (task.id.getD 0) :: assigned m' ops
    | .raised m' => assigned m' ops
  | op :: ops => assigned (applyOp m op) ops

/-! ## Round-trip lemmas -/

theorem from_dict_to_dict (t : Task) : Task.from_dict t.to_dict = .ok t := by
  obtain ⟨id, title, description, status, created_at, completed_at⟩ := t
  cases id <;> cases completed_at <;> rfl

theorem fromDictList_map_to_dict (ts : List Task) :
    fromDictList (ts.map Task.to_dict) = .ok ts := by
  induction ts with
  | nil => rfl
  | cons t ts ih =>
    simp only [List.map_cons, fromDictList, from_dict_to_dict, ih]
    rfl

theorem loadBody_save_data (m : TaskManager) :
    loadBody (save_data m) = .ok (m.tasks, m.next_id) := by
  simp only [loadBody, save_data, Json.getItem, Json.getOpt, lookupField,
    String.reduceEq, reduceIte, pyIter, bind, Except.bind, fromDictList_map_to_dict]
  rfl

/-! ## Helper lemmas on the list operations -/

theorem completeFirst_find? (task_id : Int) (now : String) (l : List Task) (t : Task)
    (h : l.find? (fun x => x.id == some task_id) = some t) :
    (completeFirst task_id now l).find? (fun x => x.id == some task_id) =
      some (Task.complete t now) := by
  induction l with
  | nil => simp at h
  | cons a l ih =>
    rw [List.find?_cons] at h
    cases ha : (a.id == some task_id) with
    | true =>
      rw [ha] at h
      simp only [Option.some.injEq] at h
      subst h
      simp [completeFirst, ha, List.find?_cons, Task.complete]
    | false =>
      rw [ha] at h
      rw [completeFirst, if_neg (by simp [ha]), List.find?_cons, ha]
      exact ih h

theorem completeFirst_map_id (task_id : Int) (now : String) (l : List Task) :
    (completeFirst task_id now l).map Task.id = l.map Task.id := by
  induction l with
  | nil => rfl
  | cons a l ih =>
    cases ha : (a.id == some task_id) with
    | true => simp [completeFirst, ha, Task.complete]
    | false => simp [completeFirst, ha, ih]

theorem mem_completeFirst (task_id : Int) (now : String) (l : List Task) (t : Task)
    (h : t ∈ completeFirst task_id now l) :
    t ∈ l ∨ ∃ t₀ ∈ l, t = Task.complete t₀ now := by
  induction l with
  | nil => simp [completeFirst] at h
  | cons a l ih =>
    cases ha : (a.id == some task_id) with
    | true =>
      rw [completeFirst, if_pos ha] at h
      rcases List.mem_cons.mp h with h | h
      · exact Or.inr ⟨a, List.mem_cons_self a l, h⟩
      · exact Or.inl (List.mem_cons_of_mem a h)
    | false =>
      rw [completeFirst, if_neg (by simp [ha])] at h
      rcases List.mem_cons.mp h with h | h
      · exact Or.inl (h ▸ List.mem_cons_self a l)
      · rcases ih h with h | ⟨t₀, ht₀, rfl⟩
        · exact Or.inl (List.mem_cons_of_mem a h)
        · exact Or.inr ⟨t₀, List.mem_cons_of_mem a ht₀, rfl⟩

theorem removeFirst_sublist (task_id : Int) (l : List Task) :
    (removeFirst task_id l).Sublist l := by
  induction l with
  | nil => exact List.Sublist.refl _
  | cons a l ih =>
    cases ha : (a.id == some task_id) with
    | true =>
      rw [removeFirst, if_pos ha]
      exact List.sublist_cons_self a l
    | false =>
      rw [removeFirst, if_neg (by simp [ha])]
      exact ih.cons₂ a

/-! ## Reachable-state invariants -/

/-- The id a reachable task carries (all reachable tasks have `some` ids). -/
def key (t : Task) : Int := t.id.getD 0

/-- Structural invariant of reachable stores: tasks strictly sorted by id,
every id defined and below the counter. -/
def StoreInv (m : TaskManager) : Prop :=
  m.tasks.Pairwise (fun a b => key a < key b) ∧
  ∀ t ∈ m.tasks, t.id = some (key t) ∧ key t < m.next_id

/-- Status/timestamp coupling invariant. -/
def Coupling (m : TaskManager) : Prop :=
  ∀ t ∈ m.tasks, (t.completed_at ≠ none ↔ t.status = "completed")

theorem complete_task_state (m : TaskManager) (task_id : Int) (now : String) :
    (complete_task true task_id now m).state = m ∨
    (complete_task true task_id now m).state =
      save_tasks { m with tasks := completeFirst task_id now m.tasks } := by
  unfold complete_task
  cases h : (get_task task_id m).1 with
  | none => exact Or.inl rfl
  | some t =>
    by_cases hs : t.status ≠ "completed"
    · right; simp [hs, MutOutcome.state]
    · left; simp [hs, MutOutcome.state]

theorem delete_task_state (m : TaskManager) (task_id : Int) :
    (delete_task true task_id m).state = m ∨
    (delete_task true task_id m).state =
      save_tasks { m with tasks := removeFirst task_id m.tasks } := by
  unfold delete_task
  cases h : (get_task task_id m).1 with
  | none => exact Or.inl rfl
  | some t => right; simp [MutOutcome.state]

theorem storeInv_applyOp (m : TaskManager) (op : Op) (h : StoreInv m) :
    StoreInv (applyOp m op) := by
  obtain ⟨hpw, hbound⟩ := h
  cases op with
  | add title description now =>
    constructor
    · show (m.tasks ++ [Task.init title description (some m.next_id) now]).Pairwise _
      rw [List.pairwise_append]
      refine ⟨hpw, List.pairwise_singleton _ _, ?_⟩
      intro a ha b hb
      rw [List.mem_singleton] at hb
      subst hb
      exact (hbound a ha).2
    · intro t ht
      rcases List.mem_append.mp ht with ht | ht
      · obtain ⟨hid, hlt⟩ := hbound t ht
        exact ⟨hid, lt_trans hlt (lt_add_one _)⟩
      · rw [List.mem_singleton] at ht
        subst ht
        exact ⟨rfl, lt_add_one _⟩
  | complete task_id now =>
    rcases complete_task_state m task_id now with hst | hst <;>
      rw [show applyOp m (.complete task_id now) = (complete_task true task_id now m).state from rfl, hst]
    · exact ⟨hpw, hbound⟩
    · constructor
      · show (completeFirst task_id now m.tasks).Pairwise _
        have hmap := completeFirst_map_id task_id now m.tasks
        have : ∀ l : List Task, l.Pairwise (fun a b => key a < key b) ↔
            (l.map Task.id).Pairwise (fun a b => a.getD 0 < b.getD 0) := by
          intro l
          rw [List.pairwise_map]
          rfl
        rw [this, hmap, ← this]
        exact hpw
      · intro t ht
        rcases mem_completeFirst task_id now m.tasks t ht with ht' | ⟨t₀, ht₀, rfl⟩
        · exact hbound t ht'
        · obtain ⟨hid, hlt⟩ := hbound t₀ ht₀
          exact ⟨hid, hlt⟩
  | delete task_id =>
    rcases delete_task_state m task_id with hst | hst <;>
      rw [show applyOp m (.delete task_id) = (delete_task true task_id m).state from rfl, hst]
    · exact ⟨hpw, hbound⟩
    · constructor
      · exact hpw.sublist (removeFirst_sublist task_id m.tasks)
      · intro t ht
        exact hbound t ((removeFirst_sublist task_id m.tasks).subset ht)

theorem coupling_applyOp (m : TaskManager) (op : Op) (h : Coupling m) :
    Coupling (applyOp m op) := by
  cases op with
  | add title description now =>
    intro t ht
    rcases List.mem_append.mp ht with ht | ht
    · exact h t ht
    · rw [List.mem_singleton] at ht
      subst ht
      simp [Task.init]
  | complete task_id now =>
    rcases complete_task_state m task_id now with hst | hst <;>
      rw [show applyOp m (.complete task_id now) = (complete_task true task_id now m).state from rfl, hst]
    · exact h
    · intro t ht
      rcases mem_completeFirst task_id now m.tasks t ht with ht' | ⟨t₀, ht₀, rfl⟩
      · exact h t ht'
      · simp [Task.complete]
  | delete task_id =>
    rcases delete_task_state m task_id with hst | hst <;>
      rw [show applyOp m (.delete task_id) = (delete_task true task_id m).state from rfl, hst]
    · exact h
    · intro t ht
      exact h t ((removeFirst_sublist task_id m.tasks).subset ht)

theorem storeInv_applyOps (m : TaskManager) (ops : List Op) (h : StoreInv m) :
    StoreInv (applyOps m ops) := by
  induction ops generalizing m with
  | nil => exact h
  | cons op ops ih => exact ih _ (storeInv_applyOp m op h)

theorem coupling_applyOps (m : TaskManager) (ops : List Op) (h : Coupling m) :
    Coupling (applyOps m ops) := by
  induction ops generalizing m with
  | nil => exact h
  | cons op ops ih => exact ih _ (coupling_applyOp m op h)

theorem nextId_le_applyOp (m : TaskManager) (op : Op) :
    m.next_id ≤ (applyOp m op).next_id := by
  cases op with
  | add title description now => exact le_of_lt (lt_add_one _)
  | complete task_id now =>
    rcases complete_task_state m task_id now with hst | hst
    · rw [show applyOp m (.complete task_id now) =
          (complete_task true task_id now m).state from rfl, hst]
    · rw [show applyOp m (.complete task_id now) =
          (complete_task true task_id now m).state from rfl, hst]
      exact le_refl _
  | delete task_id =>
    rcases delete_task_state m task_id with hst | hst
    · rw [show applyOp m (.delete task_id) =
          (delete_task true task_id m).state from rfl, hst]
    · rw [show applyOp m (.delete task_id) =
          (delete_task true task_id m).state from rfl, hst]
      exact le_refl _

theorem assigned_pairwise_bound (ops : List Op) :
    ∀ m : TaskManager, (assigned m ops).Pairwise (· < ·) ∧
      ∀ x ∈ assigned m ops, m.next_id ≤ x := by
  induction ops with
  | nil =>
    intro m
    exact ⟨List.Pairwise.nil, by intro x hx; simp [assigned] at hx⟩
  | cons op ops ih =>
    intro m
    cases op with
    | add title description now =>
      obtain ⟨ihpw, ihb⟩ := ih (applyOp m (.add title description now))
      have hnext : (applyOp m (.add title description now)).next_id = m.next_id + 1 := rfl
      have hstep : assigned m (.add title description now :: ops) =
          m.next_id :: assigned (applyOp m (.add title description now)) ops := rfl
      rw [hstep, List.pairwise_cons]
      refine ⟨⟨?_, ihpw⟩, ?_⟩
      · intro b hb
        have hb' := ihb b hb
        rw [hnext] at hb'
        omega
      · intro x hx
        rcases List.mem_cons.mp hx with rfl | hx
        · exact le_refl _
        · have hx' := ihb x hx
          rw [hnext] at hx'
          omega
    | complete task_id now =>
      obtain ⟨ihpw, ihb⟩ := ih (applyOp m (.complete task_id now))
      have hstep : assigned m (.complete task_id now :: ops) =
          assigned (applyOp m (.complete task_id now)) ops := rfl
      rw [hstep]
      refine ⟨ihpw, fun x hx => le_trans (nextId_le_applyOp m _) (ihb x hx)⟩
    | delete task_id =>
      obtain ⟨ihpw, ihb⟩ := ih (applyOp m (.delete task_id))
      have hstep : assigned m (.delete task_id :: ops) =
          assigned (applyOp m (.delete task_id)) ops := rfl
      rw [hstep]
      refine ⟨ihpw, fun x hx => le_trans (nextId_le_applyOp m _) (ihb x hx)⟩

theorem load_save_roundtrip (m : TaskManager) :
    newManager (save_tasks m).file =
      .ok { tasks := m.tasks, next_id := m.next_id,
            file := (save_tasks m).file } false := by
  show load_tasks { tasks := [], next_id := 1, file := .parsed (save_data m) } = _
  simp only [load_tasks, loadBody_save_data]
  rfl

/-! ## Claim theorems -/

/-- Claim C1: for every sequence of addTask/completeTask/deleteTask operations
applied to an initially empty store, calling save and then loading the
resulting file into a fresh store yields a store whose task sequence is equal
field-by-field to the original's and whose next_id equals the original's
next_id (and no error is reported). -/
theorem c1_save_load_roundtrip (ops : List Op) :
    newManager (save_tasks (run ops)).file =
      .ok { tasks := (run ops).tasks, next_id := (run ops).next_id,
            file := (save_tasks (run ops)).file } false :=
  load_save_roundtrip (run ops)

/-- Claim C2, amended: when the persisted file is present but its content is
unparseable JSON text (a `JSONDecodeError`), or its field lookups fail with a
missing-key error (a `KeyError`), `load_tasks` reports the error and resets
the store to zero tasks with `next_id = 1`, without raising.  (The original
claim extends this to every malformed content; the counterexample below shows
a content on which `load_tasks` raises an uncaught `TypeError` instead.) -/
theorem c2_load_error_resets (m : TaskManager) (j : Json) :
    (m.file = .unparseable →
      load_tasks m = .ok { m with tasks := [], next_id := 1 } true) ∧
    (m.file = .parsed j → loadBody j = .error .keyError →
      load_tasks m = .ok { m with tasks := [], next_id := 1 } true) := by
  constructor
  · intro h
    simp [load_tasks, h]
  · intro h hk
    simp [load_tasks, h, hk]

/-- Witness for C2's amended theorem: the unparseable file and the parsed
empty JSON object (which lacks the required "tasks" key) both reset to the
empty store with the error reported. -/
theorem c2_load_error_resets_witness :
    load_tasks { tasks := [], next_id := 1, file := .unparseable } =
        .ok { tasks := [], next_id := 1, file := .unparseable } true ∧
      load_tasks { tasks := [], next_id := 1, file := .parsed (.obj []) } =
        .ok { tasks := [], next_id := 1, file := .parsed (.obj []) } true :=
  ⟨(c2_load_error_resets { tasks := [], next_id := 1, file := .unparseable }
      (.obj [])).1 rfl,
   (c2_load_error_resets { tasks := [], next_id := 1, file := .parsed (.obj []) }
      (.obj [])).2 rfl rfl⟩

/-- Counterexample to claim C2 as stated: a persisted file holding the JSON
document `5` is present, parseable as JSON, and certainly missing the
required fields, yet `load_tasks` neither reports-and-resets nor returns —
subscripting the integer (`data["tasks"]`) raises a `TypeError`, which the
`except (json.JSONDecodeError, KeyError)` clause does not catch, so the
load crashes. -/
theorem c2_counterexample :
    load_tasks { tasks := [], next_id := 1, file := .parsed (.num 5) } =
      .raised .typeError := rfl

/-- A concrete pending task, used to instantiate hypotheses of the claim
theorems below. -/
def pendingTask1 : Task :=
  { id := some 1, title := "a", description := "", status := "pending"
    created_at := "t0", completed_at := none }

/-- A concrete one-task store holding `pendingTask1`. -/
def store1 : TaskManager := { tasks := [pendingTask1], next_id := 2, file := .absent }

/-- Claim C3: completeTask returns false when the id is absent; on an
already-completed task it returns false, leaves the store (hence that task's
completed_at) unchanged, and does not persist; on a pending task it sets the
status to completed, stamps completed_at, persists, and returns true, and a
second completeTask on the same id then returns false. -/
theorem c3_complete_task (m : TaskManager) (task_id : Int) (now : String) :
    ((get_task task_id m).1 = none →
      complete_task true task_id now m = .ok false m) ∧
    (∀ t, (get_task task_id m).1 = some t → t.status = "completed" →
      complete_task true task_id now m = .ok false m) ∧
    (∀ t, (get_task task_id m).1 = some t → t.status = "pending" →
      complete_task true task_id now m =
        .ok true (save_tasks { m with tasks := completeFirst task_id now m.tasks }) ∧
      (get_task task_id
          (save_tasks { m with tasks := completeFirst task_id now m.tasks })).1 =
        some (Task.complete t now) ∧
      (Task.complete t now).status = "completed" ∧
      (Task.complete t now).completed_at = some now ∧
      (∀ now2, complete_task true task_id now2
          (save_tasks { m with tasks := completeFirst task_id now m.tasks }) =
        .ok false (save_tasks { m with tasks := completeFirst task_id now m.tasks }))) := by
  refine ⟨?_, ?_, ?_⟩
  · intro h
    simp [complete_task, h]
  · intro t h hs
    simp [complete_task, h, hs]
  · intro t h hs
    have hfind : (get_task task_id
        (save_tasks { m with tasks := completeFirst task_id now m.tasks })).1 =
        some (Task.complete t now) := by
      show (completeFirst task_id now m.tasks).find? _ = _
      exact completeFirst_find? task_id now m.tasks t h
    refine ⟨?_, hfind, rfl, rfl, ?_⟩
    · simp [complete_task, h, hs]
    · intro now2
      simp [complete_task, hfind, Task.complete]

/-- Witness for C3: completing the pending task of `store1` returns true and
transitions it; re-completing returns false. -/
theorem c3_complete_task_witness :
    (get_task 1 store1).1 = some pendingTask1 ∧ pendingTask1.status = "pending" ∧
      (complete_task true 1 "t1" store1 =
        .ok true (save_tasks { store1 with tasks := completeFirst 1 "t1" store1.tasks }) ∧
      (get_task 1
          (save_tasks { store1 with tasks := completeFirst 1 "t1" store1.tasks })).1 =
        some (Task.complete pendingTask1 "t1") ∧
      (Task.complete pendingTask1 "t1").status = "completed" ∧
      (Task.complete pendingTask1 "t1").completed_at = some "t1" ∧
      (∀ now2, complete_task true 1 now2
          (save_tasks { store1 with tasks := completeFirst 1 "t1" store1.tasks }) =
        .ok false (save_tasks { store1 with tasks := completeFirst 1 "t1" store1.tasks }))) :=
  ⟨rfl, rfl, (c3_complete_task store1 1 "t1").2.2 pendingTask1 rfl rfl⟩

/-- Claim C6: addTask constructs a task whose id is the current next_id,
appends it at the end, increments next_id, persists, and returns the new
task; on an empty store the returned task has id 1, status pending and a
null completed_at. -/
theorem c6_add_task (m : TaskManager) (title description now : String) :
    (add_task true title description now m).result =
        some (Task.init title description (some m.next_id) now) ∧
    (Task.init title description (some m.next_id) now).id = some m.next_id ∧
    (Task.init title description (some m.next_id) now).status = "pending" ∧
    (Task.init title description (some m.next_id) now).completed_at = none ∧
    (add_task true title description now m).state.tasks =
      m.tasks ++ [Task.init title description (some m.next_id) now] ∧
    (add_task true title description now m).state.next_id = m.next_id + 1 ∧
    (add_task true title description now m).state.file =
      .parsed (save_data (add_task true title description now m).state) ∧
    (add_task true "Buy milk" "" now initStore).result =
      some { id := some 1, title := "Buy milk", description := ""
             status := "pending", created_at := now, completed_at := none } :=
  ⟨rfl, rfl, rfl, rfl, rfl, rfl, rfl, rfl⟩

/-- Claim C9: the read-only operations list_tasks, get_task and
get_statistics return the store unchanged (same tasks, same fields, same
next_id, same persisted file). -/
theorem c9_readonly_ops (m : TaskManager) (status : Option String) (task_id : Int) :
    (list_tasks status m).2 = m ∧ (get_task task_id m).2 = m ∧
      (get_statistics m).2 = m :=
  ⟨rfl, rfl, rfl⟩

/-- Claim C4: over any run from the empty store, the ids handed out by the
successive addTask calls are strictly increasing (hence never reused), even
across deletes; in particular after adding ids 1,2,3 and deleting 2, the
store lists ids 1,3 and the next addTask hands out id 4, not 2. -/
theorem c4_id_monotonicity (ops : List Op) :
    (assigned initStore ops).Pairwise (· < ·) ∧
    assigned initStore
        [Op.add "a" "" "t1", Op.add "b" "" "t2", Op.add "c" "" "t3",
         Op.delete 2, Op.add "d" "" "t4"] = [1, 2, 3, 4] ∧
    (run [Op.add "a" "" "t1", Op.add "b" "" "t2", Op.add "c" "" "t3",
          Op.delete 2]).tasks.map Task.id = [some 1, some 3] :=
  ⟨(assigned_pairwise_bound ops initStore).1, rfl, rfl⟩

/-- Claim C5: in every store reachable from the empty store by
addTask/completeTask/deleteTask, every task's completed_at is non-null
exactly when its status is "completed". -/
theorem c5_status_timestamp_coupling (ops : List Op) :
    ∀ t ∈ (run ops).tasks, t.completed_at ≠ none ↔ t.status = "completed" :=
  coupling_applyOps initStore ops (by intro t ht; simp [initStore] at ht)

/-- Witness for C5: the task obtained by adding then completing id 1 is in
the reachable store and satisfies the coupling. -/
theorem c5_status_timestamp_coupling_witness :
    Task.complete (Task.init "a" "" (some 1) "t1") "t2" ∈
      (run [Op.add "a" "" "t1", Op.complete 1 "t2"]).tasks ∧
    ((Task.complete (Task.init "a" "" (some 1) "t1") "t2").completed_at ≠ none ↔
      (Task.complete (Task.init "a" "" (some 1) "t1") "t2").status = "completed") :=
  ⟨by decide,
   c5_status_timestamp_coupling [Op.add "a" "" "t1", Op.complete 1 "t2"]
     (Task.complete (Task.init "a" "" (some 1) "t1") "t2") (by decide)⟩

/-- Claim C7: with a filter in {pending, completed}, list_tasks returns
exactly the tasks whose status equals the filter, as a subsequence of the
store's insertion order, and the empty list (not an error) when nothing
matches; with no filter it returns all tasks in insertion order. -/
theorem c7_list_tasks (m : TaskManager) (s : String)
    (hs : s = "pending" ∨ s = "completed") :
    (list_tasks (some s) m).1.Sublist m.tasks ∧
    (∀ t, t ∈ (list_tasks (some s) m).1 ↔ t ∈ m.tasks ∧ t.status = s) ∧
    ((∀ t ∈ m.tasks, t.status ≠ s) → (list_tasks (some s) m).1 = []) ∧
    (list_tasks none m).1 = m.tasks := by
  have hne : s ≠ "" := by rcases hs with rfl | rfl <;> simp
  have hlist : (list_tasks (some s) m).1 = m.tasks.filter (fun t => t.status == s) := by
    simp [list_tasks, hne]
  refine ⟨?_, ?_, ?_, rfl⟩
  · rw [hlist]
    exact List.filter_sublist m.tasks
  · intro t
    rw [hlist, List.mem_filter]
    simp
  · intro h
    rw [hlist, List.filter_eq_nil_iff]
    intro t ht
    simp [h t ht]

/-- A five-task store with tasks 1 and 3 completed and 2, 4, 5 pending
(spec scenario 5). -/
def c7store : TaskManager :=
  { tasks :=
      [{ id := some 1, title := "a", description := "", status := "completed"
         created_at := "t1", completed_at := some "c1" },
       { id := some 2, title := "b", description := "", status := "pending"
         created_at := "t2", completed_at := none },
       { id := some 3, title := "c", description := "", status := "completed"
         created_at := "t3", completed_at := some "c3" },
       { id := some 4, title := "d", description := "", status := "pending"
         created_at := "t4", completed_at := none },
       { id := some 5, title := "e", description := "", status := "pending"
         created_at := "t5", completed_at := none }]
    next_id := 6, file := .absent }

/-- Witness for C7 on `c7store`: filtering by "completed" yields exactly the
two completed tasks (ids 1 and 3), in insertion order. -/
theorem c7_list_tasks_witness :
    ("completed" = "pending" ∨ "completed" = "completed") ∧
    ((list_tasks (some "completed") c7store).1.Sublist c7store.tasks ∧
     (∀ t, t ∈ (list_tasks (some "completed") c7store).1 ↔
        t ∈ c7store.tasks ∧ t.status = "completed") ∧
     ((∀ t ∈ c7store.tasks, t.status ≠ "completed") →
        (list_tasks (some "completed") c7store).1 = []) ∧
     (list_tasks none c7store).1 = c7store.tasks) ∧
    (list_tasks (some "completed") c7store).1.map Task.id = [some 1, some 3] :=
  ⟨Or.inr rfl, c7_list_tasks c7store "completed" (Or.inr rfl), rfl⟩

/-- Claim C8: when the save step fails, each mutating operation surfaces the
error (the exception propagates) and leaves the in-memory state mutated: the
append and counter increment, the status change, or the removal have already
been applied, with no rollback. -/
theorem c8_save_failure (m : TaskManager) (title description now : String)
    (task_id : Int) (now2 : String) :
    ((add_task false title description now m).didRaise = true ∧
     (add_task false title description now m).state.tasks =
       m.tasks ++ [Task.init title description (some m.next_id) now] ∧
     (add_task false title description now m).state.next_id = m.next_id + 1) ∧
    (∀ t, (get_task task_id m).1 = some t → t.status ≠ "completed" →
      (complete_task false task_id now2 m).didRaise = true ∧
      (complete_task false task_id now2 m).state.tasks =
        completeFirst task_id now2 m.tasks ∧
      (complete_task false task_id now2 m).state.next_id = m.next_id) ∧
    (∀ t, (get_task task_id m).1 = some t →
      (delete_task false task_id m).didRaise = true ∧
      (delete_task false task_id m).state.tasks = removeFirst task_id m.tasks ∧
      (delete_task false task_id m).state.next_id = m.next_id) := by
  refine ⟨⟨rfl, rfl, rfl⟩, ?_, ?_⟩
  · intro t h hs
    refine ⟨?_, ?_, ?_⟩ <;>
      simp [complete_task, h, hs, MutOutcome.didRaise, MutOutcome.state]
  · intro t h
    refine ⟨?_, ?_, ?_⟩ <;>
      simp [delete_task, h, MutOutcome.didRaise, MutOutcome.state]

/-- Witness for C8 on `store1`: the failed-save add, complete and delete all
raise and leave the mutation applied. -/
theorem c8_save_failure_witness :
    (get_task 1 store1).1 = some pendingTask1 ∧
    pendingTask1.status ≠ "completed" ∧
    ((add_task false "x" "" "t9" store1).didRaise = true ∧
     (add_task false "x" "" "t9" store1).state.tasks =
       store1.tasks ++ [Task.init "x" "" (some store1.next_id) "t9"] ∧
     (add_task false "x" "" "t9" store1).state.next_id = store1.next_id + 1) ∧
    ((complete_task false 1 "t9" store1).didRaise = true ∧
     (complete_task false 1 "t9" store1).state.tasks =
       completeFirst 1 "t9" store1.tasks ∧
     (complete_task false 1 "t9" store1).state.next_id = store1.next_id) ∧
    ((delete_task false 1 store1).didRaise = true ∧
     (delete_task false 1 store1).state.tasks = removeFirst 1 store1.tasks ∧
     (delete_task false 1 store1).state.next_id = store1.next_id) :=
  ⟨rfl, by decide,
   (c8_save_failure store1 "x" "" "t9" 1 "t9").1,
   (c8_save_failure store1 "x" "" "t9" 1 "t9").2.1 pendingTask1 rfl (by decide),
   (c8_save_failure store1 "x" "" "t9" 1 "t9").2.2 pendingTask1 rfl⟩

/-- Claim C10: in every reachable store the task sequence (what list_tasks
with no filter returns) is strictly sorted by id, every id is defined and
strictly below next_id; hence all ids are distinct and insertion order is
increasing-id order. -/
theorem c10_sorted_ids (ops : List Op) :
    (list_tasks none (run ops)).1.Pairwise (fun a b => key a < key b) ∧
    ∀ t ∈ (run ops).tasks, t.id = some (key t) ∧ key t < (run ops).next_id :=
  storeInv_applyOps initStore ops
    ⟨List.Pairwise.nil, by intro t ht; simp [initStore] at ht⟩

/-- Witness for C10: after two adds, the task with id 1 is in the store, its
key is defined and below next_id, and the listing is sorted by id. -/
theorem c10_sorted_ids_witness :
    Task.init "a" "" (some 1) "t1" ∈
      (run [Op.add "a" "" "t1", Op.add "b" "" "t2"]).tasks ∧
    ((Task.init "a" "" (some 1) "t1").id = some (key (Task.init "a" "" (some 1) "t1")) ∧
      key (Task.init "a" "" (some 1) "t1") <
        (run [Op.add "a" "" "t1", Op.add "b" "" "t2"]).next_id) ∧
    (list_tasks none (run [Op.add "a" "" "t1", Op.add "b" "" "t2"])).1.Pairwise
      (fun a b => key a < key b) :=
  ⟨by decide,
   (c10_sorted_ids [Op.add "a" "" "t1", Op.add "b" "" "t2"]).2
     (Task.init "a" "" (some 1) "t1") (by decide),
   (c10_sorted_ids [Op.add "a" "" "t1", Op.add "b" "" "t2"]).1⟩

end PyTM
